import Mathlib

/-!
Shallow embedding of the ADF lead validator (`jsontopyobj.py`): a tree of
pydantic-v2 models validating a JSON-like value tree, collecting per-field
errors, and re-serializing via `model_dump`.

Conventions of the embedding:
* `JValue` is the raw JSON tree handed to `Lead(**data)`.
* `VResult` mirrors the three outcomes of running pydantic validation:
  `ok` (a validated model), `errs` (a `ValidationError` carrying the collected
  error list), and `crash` (a non-`ValueError` exception such as `TypeError`
  escaping a validator, which pydantic does not convert into a validation
  error).
* Each pydantic model becomes a structure plus a `validate` function built
  from per-field pipelines: a field is looked up under its alias (pydantic
  v2 with an `alias=` and default `populate_by_name=False` accepts only the
  alias key), absent fields take their default with `@field_validator`s
  skipped (`validate_default=False`), present values are validated by the
  annotation and then passed to the field validator; errors of all fields are
  accumulated in declaration order; an `@model_validator(mode="after")` runs
  only when every field validated successfully.
* `model_dump` serializes by field name (the script never passes
  `by_alias=True`), emitting `null` for `None`.
-/

namespace ADFV

/-- Raw JSON-like value tree (output of `json.load`): the input to the
validation core.  Documents in this development use no floats or booleans. -/
inductive JValue : Type where
  | null : JValue
  | str (s : String) : JValue
  | int (n : Int) : JValue
  | obj (kvs : List (String × JValue)) : JValue
  | arr (xs : List JValue) : JValue

/-- One entry of pydantic's `ValidationError.errors()`: its `type`, `loc`
path and human message `msg`. -/
structure PError where
  type : String
  loc : List String
  msg : String
deriving DecidableEq

/-- Outcome of running pydantic validation on a value: success, a
`ValidationError` with its collected error list, or an uncaught exception
(`TypeError` etc.) escaping a validator. -/
inductive VResult (α : Type) : Type where
  | ok (a : α) : VResult α
  | errs (es : List PError) : VResult α
  | crash (m : String) : VResult α

namespace VResult

/-- Applicative combination of two field results, mirroring pydantic's
sequential field validation: a crash aborts the run, errors accumulate in
field order, values are combined on full success. -/
def seq {α β : Type} : VResult (α → β) → VResult α → VResult β
  | .crash m, _ => .crash m
  | .errs _, .crash m => .crash m
  | .errs e1, .errs e2 => .errs (e1 ++ e2)
  | .errs e1, .ok _ => .errs e1
  | .ok _, .crash m => .crash m
  | .ok _, .errs e2 => .errs e2
  | .ok f, .ok a => .ok (f a)

def map {α β : Type} (f : α → β) : VResult α → VResult β
  | .ok a => .ok (f a)
  | .errs e => .errs e
  | .crash m => .crash m

/-- Run a whole-record validator after successful field validation
(`@model_validator(mode="after")` is skipped when field errors exist). -/
def thenPost {α : Type} : VResult α → (α → VResult α) → VResult α
  | .ok a, post => post a
  | .errs e, _ => .errs e
  | .crash m, _ => .crash m

def isOk {α : Type} : VResult α → Bool
  | .ok _ => true
  | _ => false

end VResult

/-- Dictionary lookup on the raw tree (`data.get(key)`). -/
def jget (kvs : List (String × JValue)) (k : String) : Option JValue :=
  match kvs with
  | [] => none
  | (k', v) :: rest => if k' == k then some v else jget rest k

/-- Prefix a key onto the `loc` of every collected error, as pydantic does
when an error is attributed to a field of an enclosing model. -/
def withKey {α : Type} (k : String) : VResult α → VResult α
  | .errs es => .errs (es.map fun e => ⟨e.type, k :: e.loc, e.msg⟩)
  | r => r

/-- A `ValueError` raised inside a `@field_validator` or
`@model_validator`: pydantic records it as a `value_error` entry whose
message is prefixed with `Value error, `. -/
def verr (m : String) : VResult (Option String) :=
  .errs [⟨"value_error", [], "Value error, " ++ m⟩]

def verrI (m : String) : VResult (Option Int) :=
  .errs [⟨"value_error", [], "Value error, " ++ m⟩]

/-- Digits of a decimal literal. -/
def digitsToNat : List Char → Option Nat
  | [] => none
  | cs => go cs 0
where go : List Char → Nat → Option Nat
  | [], acc => some acc
  | c :: rest, acc => if c.isDigit then go rest (acc * 10 + (c.toNat - 48)) else none

/-- Lax string-to-int coercion used by pydantic v2 for `int` fields fed a
JSON string (an optionally signed decimal literal). -/
def parseIntLax (s : String) : Option Int :=
  match s.data with
  | '-' :: rest => (digitsToNat rest).map fun n => -(n : Int)
  | '+' :: rest => (digitsToNat rest).map fun n => (n : Int)
  | cs => (digitsToNat cs).map fun n => (n : Int)

/-- Embeds `is_valid_currency_code`: `bool(re.match(r"^[A-Z]{3}$", code))`.
Python's `$` matches at the end of the string or just before one trailing
newline, so three uppercase ASCII letters followed by a single `'\n'` also
match. -/
def is_valid_currency_code (s : String) : Bool :=
  match s.data with
  | [a, b, c] => a.isUpper && b.isUpper && c.isUpper
  | [a, b, c, d] => a.isUpper && b.isUpper && c.isUpper && (d == '\n')
  | _ => false

/-- Two decimal digits read as a number. -/
def take2 : List Char → Option (Nat × List Char)
  | a :: b :: rest =>
      if a.isDigit && b.isDigit then some ((a.toNat - 48) * 10 + (b.toNat - 48), rest)
      else none
  | _ => none

def isLeapYear (y : Nat) : Bool :=
  (y % 4 == 0 && y % 100 != 0) || y % 400 == 0

def daysInMonth (y m : Nat) : Nat :=
  if m == 2 then (if isLeapYear y then 29 else 28)
  else if m == 4 || m == 6 || m == 9 || m == 11 then 30
  else 31

def validYMD (y m d : Nat) : Bool :=
  1 ≤ y && y ≤ 9999 && 1 ≤ m && m ≤ 12 && 1 ≤ d && d ≤ daysInMonth y m

/-- Fractional seconds: one or more digits, returning the remainder. -/
def dropDigits1 : List Char → Option (List Char)
  | c :: rest => if c.isDigit then some (dropDigitsRest rest) else none
  | [] => none
where dropDigitsRest : List Char → List Char
  | c :: rest => if c.isDigit then dropDigitsRest rest else c :: rest
  | [] => []

/-- UTC offset suffix accepted by `datetime.fromisoformat`:
empty, `Z`, or `±HH[:MM[:SS]]` / `±HHMM[SS]` with in-range components. -/
def isoOffsetOk (cs : List Char) : Bool :=
  match cs with
  | [] => true
  | ['Z'] => true
  | c :: rest =>
      (c == '+' || c == '-') &&
      (match take2 rest with
       | none => false
       | some (hh, r2) =>
          hh ≤ 23 &&
          (match r2 with
           | [] => true
           | ':' :: r3 =>
              (match take2 r3 with
               | none => false
               | some (mm, r4) =>
                  mm ≤ 59 &&
                  (match r4 with
                   | [] => true
                   | ':' :: r5 =>
                      (match take2 r5 with
                       | none => false
                       | some (ss, r6) => ss ≤ 59 && r6 == [])
                   | _ => false))
           | _ =>
              (match take2 r2 with
               | none => false
               | some (mm, r4) =>
                  mm ≤ 59 &&
                  (match r4 with
                   | [] => true
                   | _ =>
                      (match take2 r4 with
                       | none => false
                       | some (ss, r5) => ss ≤ 59 && r5 == [])))))

/-- Time-of-day part accepted by `datetime.fromisoformat`:
`HH[:MM[:SS[.ffff]]]` followed by an optional UTC offset. -/
def isoTimeOk (cs : List Char) : Bool :=
  match take2 cs with
  | none => false
  | some (hh, r1) =>
      hh ≤ 23 &&
      (match r1 with
       | ':' :: r2 =>
          (match take2 r2 with
           | none => false
           | some (mm, r3) =>
              mm ≤ 59 &&
              (match r3 with
               | ':' :: r4 =>
                  (match take2 r4 with
                   | none => false
                   | some (ss, r5) =>
                      ss ≤ 59 &&
                      (match r5 with
                       | '.' :: r6 =>
                          (match dropDigits1 r6 with
                           | none => false
                           | some r7 => isoOffsetOk r7)
                       | ',' :: r6 =>
                          (match dropDigits1 r6 with
                           | none => false
                           | some r7 => isoOffsetOk r7)
                       | _ => isoOffsetOk r5))
               | _ => isoOffsetOk r3))
       | _ => isoOffsetOk r1)

/-- After the date, an optional time introduced by one separator character
(CPython 3.11 allows any single character as the separator). -/
def isoTailOk (cs : List Char) : Bool :=
  match cs with
  | [] => true
  | _ :: timeCs => isoTimeOk timeCs

/-- Embeds `is_iso8601`: `datetime.fromisoformat(string)` succeeding
(CPython 3.11 grammar on the dash-separated and compact calendar-date
forms; ISO week and ordinal dates are not modelled — no value in this
development uses them). -/
def is_iso8601 (s : String) : Bool :=
  match s.data with
  | y1 :: y2 :: y3 :: y4 :: rest =>
      (y1.isDigit && y2.isDigit && y3.isDigit && y4.isDigit) &&
      (let y := (((y1.toNat - 48) * 10 + (y2.toNat - 48)) * 10 + (y3.toNat - 48)) * 10 +
                  (y4.toNat - 48)
       match rest with
       | '-' :: m1 :: m2 :: '-' :: d1 :: d2 :: rest2 =>
          (m1.isDigit && m2.isDigit && d1.isDigit && d2.isDigit) &&
          validYMD y ((m1.toNat - 48) * 10 + (m2.toNat - 48))
            ((d1.toNat - 48) * 10 + (d2.toNat - 48)) &&
          isoTailOk rest2
       | m1 :: m2 :: d1 :: d2 :: rest2 =>
          (m1.isDigit && m2.isDigit && d1.isDigit && d2.isDigit) &&
          validYMD y ((m1.toNat - 48) * 10 + (m2.toNat - 48))
            ((d1.toNat - 48) * 10 + (d2.toNat - 48)) &&
          isoTailOk rest2
       | _ => false)
  | _ => false

/-- Embeds `is_valid_iso_3166_alpha_2`: `pycountry.countries.lookup(code)`
succeeding.  The external pycountry table is abstracted to the identifiers
exercised by this development (the lookup accepts alpha-2/alpha-3 codes and
names); no claim depends on its exact extent. -/
def is_valid_iso_3166_alpha_2 (code : String) : Bool :=
  ["CA", "CAN", "Canada", "US", "USA", "United States", "GB", "DE", "FR"].contains code

/-! ### Field pipelines

Annotation-level validation of a raw value, per pydantic v2 lax mode. -/

/-- The `Optional[str]` annotation on a present raw value. -/
def jOptStr : JValue → VResult (Option String)
  | .null => .ok none
  | .str s => .ok (some s)
  | _ => .errs [⟨"string_type", [], "Input should be a valid string"⟩]

/-- The `str` (required) annotation on a present raw value. -/
def jReqStr : JValue → VResult String
  | .str s => .ok s
  | _ => .errs [⟨"string_type", [], "Input should be a valid string"⟩]

/-- The `Optional[int]` annotation on a present raw value (lax mode coerces a
string decimal literal). -/
def jOptInt : JValue → VResult (Option Int)
  | .null => .ok none
  | .int n => .ok (some n)
  | .str s =>
      match parseIntLax s with
      | some n => .ok (some n)
      | none => .errs [⟨"int_parsing", [],
          "Input should be a valid integer, unable to parse string as an integer"⟩]
  | _ => .errs [⟨"int_type", [], "Input should be a valid integer"⟩]

/-- The `Optional[PositiveInt]` annotation on a present raw value. -/
def jOptPosInt (j : JValue) : VResult (Option Int) :=
  match jOptInt j with
  | .ok (some n) =>
      if 0 < n then .ok (some n)
      else .errs [⟨"greater_than", [], "Input should be greater than 0"⟩]
  | r => r

/-- Optional string field with no attached validator: absent keys take the
`None` default. -/
def fieldOptStrP (k : String) (kvs : List (String × JValue)) : VResult (Option String) :=
  match jget kvs k with
  | none => .ok none
  | some j => withKey k (jOptStr j)

/-- Optional string field with a `@field_validator`: the validator runs on
the annotation-validated value of a present key, and is skipped when the key
is absent (`validate_default=False`). -/
def fieldOptStrV (k : String) (kvs : List (String × JValue))
    (val : Option String → VResult (Option String)) : VResult (Option String) :=
  match jget kvs k with
  | none => .ok none
  | some j => withKey k ((jOptStr j).thenPost val)

/-- Required `str` field: an absent key is a `missing` error. -/
def fieldReqStr (k : String) (kvs : List (String × JValue)) : VResult String :=
  match jget kvs k with
  | none => .errs [⟨"missing", [k], "Field required"⟩]
  | some j => withKey k (jReqStr j)

/-- Optional int field with no attached validator. -/
def fieldOptIntP (k : String) (kvs : List (String × JValue)) : VResult (Option Int) :=
  match jget kvs k with
  | none => .ok none
  | some j => withKey k (jOptInt j)

/-- Optional int field with a `@field_validator`. -/
def fieldOptIntV (k : String) (kvs : List (String × JValue))
    (val : Option Int → VResult (Option Int)) : VResult (Option Int) :=
  match jget kvs k with
  | none => .ok none
  | some j => withKey k ((jOptInt j).thenPost val)

/-- An `Optional[PositiveInt]` field. -/
def fieldOptPosInt (k : String) (kvs : List (String × JValue)) : VResult (Option Int) :=
  match jget kvs k with
  | none => .ok none
  | some j => withKey k (jOptPosInt j)

/-- Optional nested-model (or union) field: a present non-null value is
validated by the nested validator with errors attributed to the key. -/
def fieldModel {α : Type} (k : String) (kvs : List (String × JValue))
    (vm : JValue → VResult α) : VResult (Option α) :=
  match jget kvs k with
  | none => .ok none
  | some .null => .ok none
  | some j => withKey k ((vm j).map some)

/-- Validate every element of a raw sequence, indices entering `loc`. -/
def vlist {α : Type} (vm : JValue → VResult α) : List JValue → Nat → VResult (List α)
  | [], _ => .ok []
  | x :: rest, i =>
      (VResult.map (fun a as => a :: as) (withKey (toString i) (vm x))).seq
        (vlist vm rest (i + 1))

/-- Serialization of optional leaves for `model_dump`. -/
def jOfOptStr : Option String → JValue
  | none => .null
  | some s => .str s

def jOfOptInt : Option Int → JValue
  | none => .null
  | some n => .int n

def jOfOpt {α : Type} (dump : α → JValue) : Option α → JValue
  | none => .null
  | some a => dump a

/-! ### The pydantic models, in source order -/

/-- Embeds `class Id`. -/
structure Id where
  sequence : Option Int
  source : Option String

/-- Validation of `Id` (no field validators; `@sequence` is
`Optional[PositiveInt]`). -/
def Id.validate : JValue → VResult Id
  | .obj kvs =>
      ((VResult.ok Id.mk).seq
        (fieldOptPosInt "@sequence" kvs)).seq
        (fieldOptStrP "@source" kvs)
  | _ => .errs [⟨"model_type", [], "Input should be a valid dictionary"⟩]

def Id.model_dump (x : Id) : JValue :=
  .obj [("sequence", jOfOptInt x.sequence), ("source", jOfOptStr x.source)]

/-- Embeds `class Odometer`. -/
structure Odometer where
  status : Option String
  units : Option String
  odometer : Option Int

/-- Embeds `Odometer.validate_status`: value must be `None` or one of the
enumerated statuses. -/
def Odometer.validate_status (v : Option String) : VResult (Option String) :=
  match v with
  | none => .ok none
  | some s =>
      if s == "unknown" || s == "rolledover" || s == "replaced" || s == "original" then
        .ok (some s)
      else verr "Invalid Status input"

/-- Embeds `Odometer.validate_units`. -/
def Odometer.validate_units (v : Option String) : VResult (Option String) :=
  match v with
  | none => .ok none
  | some s => if s == "km" || s == "mi" then .ok (some s) else verr "Invalid Units input"

def Odometer.validate : JValue → VResult Odometer
  | .obj kvs =>
      (((VResult.ok Odometer.mk).seq
        (fieldOptStrV "@status" kvs Odometer.validate_status)).seq
        (fieldOptStrV "@units" kvs Odometer.validate_units)).seq
        (fieldOptIntP "#text" kvs)
  | _ => .errs [⟨"model_type", [], "Input should be a valid dictionary"⟩]

def Odometer.model_dump (x : Odometer) : JValue :=
  .obj [("status", jOfOptStr x.status), ("units", jOfOptStr x.units),
        ("odometer", jOfOptInt x.odometer)]

/-- Embeds `class ColorCombination`. -/
structure ColorCombination where
  interior_color : Option String
  exterior_color : Option String
  preference : Option Int

/-- Embeds `ColorCombination.validate_preference`: `if value < 1: raise`.
With `value = None` the comparison `None < 1` raises `TypeError`, which
pydantic does not convert into a validation error. -/
def ColorCombination.validate_preference (v : Option Int) : VResult (Option Int) :=
  match v with
  | none => .crash "TypeError"
  | some n => if n < 1 then verrI "Invalid Preference input" else .ok (some n)

def ColorCombination.validate : JValue → VResult ColorCombination
  | .obj kvs =>
      (((VResult.ok ColorCombination.mk).seq
        (fieldOptStrP "interior_color" kvs)).seq
        (fieldOptStrP "exterior_color" kvs)).seq
        (fieldOptIntV "preference" kvs ColorCombination.validate_preference)
  | _ => .errs [⟨"model_type", [], "Input should be a valid dictionary"⟩]

def ColorCombination.model_dump (x : ColorCombination) : JValue :=
  .obj [("interior_color", jOfOptStr x.interior_color),
        ("exterior_color", jOfOptStr x.exterior_color),
        ("preference", jOfOptInt x.preference)]

/-- Embeds `class ImageTag` (no validators). -/
structure ImageTag where
  width : Option String
  height : Option String
  alt_text : Option String
  image_tag : Option String

def ImageTag.validate : JValue → VResult ImageTag
  | .obj kvs =>
      ((((VResult.ok ImageTag.mk).seq
        (fieldOptStrP "@width" kvs)).seq
        (fieldOptStrP "@height" kvs)).seq
        (fieldOptStrP "@alttext" kvs)).seq
        (fieldOptStrP "#text" kvs)
  | _ => .errs [⟨"model_type", [], "Input should be a valid dictionary"⟩]

def ImageTag.model_dump (x : ImageTag) : JValue :=
  .obj [("width", jOfOptStr x.width), ("height", jOfOptStr x.height),
        ("alt_text", jOfOptStr x.alt_text), ("image_tag", jOfOptStr x.image_tag)]

/-- Embeds `class Price`.  Note the mistyped alias of `currency`:
`Field(alias="@curreny")`. -/
structure Price where
  type : Option String
  currency : Option String
  delta : Option String
  relative_to : Option String
  source : Option String
  price : Option Int

/-- Embeds `Price.validate_type`. -/
def Price.validate_type (v : Option String) : VResult (Option String) :=
  match v with
  | none => .ok none
  | some s =>
      if s == "quote" || s == "offer" || s == "msrp" || s == "invoice" || s == "call" ||
          s == "apraisal" || s == "asking" then .ok (some s)
      else verr "Invalid Price Type input"

/-- Embeds `Price.validate_currency`: `is_valid_currency_code(value)`.
With `value = None`, `re.match` raises `TypeError`. -/
def Price.validate_currency (v : Option String) : VResult (Option String) :=
  match v with
  | none => .crash "TypeError"
  | some s => if is_valid_currency_code s then .ok (some s) else verr "Invalid Currency input"

/-- Embeds `Price.validate_delta`. -/
def Price.validate_delta (v : Option String) : VResult (Option String) :=
  match v with
  | none => .ok none
  | some s =>
      if s == "absolute" || s == "relative" || s == "percentage" then .ok (some s)
      else verr "Invalid Price Delta input"

/-- Embeds `Price.validate_relativeto` (its message reads `Invalid Price
Type input`, as in the source). -/
def Price.validate_relativeto (v : Option String) : VResult (Option String) :=
  match v with
  | none => .ok none
  | some s =>
      if s == "msrp" || s == "invoice" then .ok (some s) else verr "Invalid Price Type input"

def Price.validate : JValue → VResult Price
  | .obj kvs =>
      ((((((VResult.ok Price.mk).seq
        (fieldOptStrV "@type" kvs Price.validate_type)).seq
        (fieldOptStrV "@curreny" kvs Price.validate_currency)).seq
        (fieldOptStrV "@delta" kvs Price.validate_delta)).seq
        (fieldOptStrV "@relative_to" kvs Price.validate_relativeto)).seq
        (fieldOptStrP "@source" kvs)).seq
        (fieldOptIntP "@price" kvs)
  | _ => .errs [⟨"model_type", [], "Input should be a valid dictionary"⟩]

def Price.model_dump (x : Price) : JValue :=
  .obj [("type", jOfOptStr x.type), ("currency", jOfOptStr x.currency),
        ("delta", jOfOptStr x.delta), ("relative_to", jOfOptStr x.relative_to),
        ("source", jOfOptStr x.source), ("price", jOfOptInt x.price)]

/-- Embeds `class Option` of the source (a vehicle option); named `VOption`
because `Option` is taken by Lean's core type. -/
structure VOption where
  option_name : Option String
  manufacture_code : Option String
  stock : Option String
  weighting : Option Int
  price : Option Price

/-- Embeds `Option.validate_weighting`: `if value >= 100 or value <= -100:
raise`.  With `value = None` the comparison raises `TypeError`. -/
def VOption.validate_weighting (v : Option Int) : VResult (Option Int) :=
  match v with
  | none => .crash "TypeError"
  | some n =>
      if 100 ≤ n ∨ n ≤ -100 then verrI "Invalid Weighting input" else .ok (some n)

def VOption.validate : JValue → VResult VOption
  | .obj kvs =>
      (((((VResult.ok VOption.mk).seq
        (fieldOptStrP "option_name" kvs)).seq
        (fieldOptStrP "manufacture_code" kvs)).seq
        (fieldOptStrP "stock" kvs)).seq
        (fieldOptIntV "weighting" kvs VOption.validate_weighting)).seq
        (fieldModel "price" kvs Price.validate)
  | _ => .errs [⟨"model_type", [], "Input should be a valid dictionary"⟩]

def VOption.model_dump (x : VOption) : JValue :=
  .obj [("option_name", jOfOptStr x.option_name),
        ("manufacture_code", jOfOptStr x.manufacture_code),
        ("stock", jOfOptStr x.stock), ("weighting", jOfOptInt x.weighting),
        ("price", jOfOpt Price.model_dump x.price)]

/-- Embeds `class Amount`. -/
structure Amount where
  type : Option String
  limit : Option String
  currency : Option String
  amount : Option Int

/-- Embeds `Amount.validate_type`. -/
def Amount.validate_type (v : Option String) : VResult (Option String) :=
  match v with
  | none => .ok none
  | some s =>
      if s == "downpayment" || s == "monthly" || s == "total" then .ok (some s)
      else verr "Invalid Type input"

/-- Embeds `Amount.validate_limit`. -/
def Amount.validate_limit (v : Option String) : VResult (Option String) :=
  match v with
  | none => .ok none
  | some s =>
      if s == "maximum" || s == "minimum" || s == "exact" then .ok (some s)
      else verr "Invalid Limit input"

/-- Embeds `Amount.validate_currency` (same body as `Price`'s). -/
def Amount.validate_currency (v : Option String) : VResult (Option String) :=
  match v with
  | none => .crash "TypeError"
  | some s => if is_valid_currency_code s then .ok (some s) else verr "Invalid Currency input"

def Amount.validate : JValue → VResult Amount
  | .obj kvs =>
      ((((VResult.ok Amount.mk).seq
        (fieldOptStrV "@type" kvs Amount.validate_type)).seq
        (fieldOptStrV "@limit" kvs Amount.validate_limit)).seq
        (fieldOptStrV "@currency" kvs Amount.validate_currency)).seq
        (fieldOptIntP "amount" kvs)
  | _ => .errs [⟨"model_type", [], "Input should be a valid dictionary"⟩]

def Amount.model_dump (x : Amount) : JValue :=
  .obj [("type", jOfOptStr x.type), ("limit", jOfOptStr x.limit),
        ("currency", jOfOptStr x.currency), ("amount", jOfOptInt x.amount)]

/-- Embeds `class Balance`. -/
structure Balance where
  type : Option String
  currency : Option String
  balance : Option Int

/-- Embeds `Balance.validate_type`. -/
def Balance.validate_type (v : Option String) : VResult (Option String) :=
  match v with
  | none => .ok none
  | some s =>
      if s == "finance" || s == "residual" then .ok (some s) else verr "Invalid Type input"

/-- Embeds `Balance.validate_currency`. -/
def Balance.validate_currency (v : Option String) : VResult (Option String) :=
  match v with
  | none => .crash "TypeError"
  | some s => if is_valid_currency_code s then .ok (some s) else verr "Invalid Currency input"

def Balance.validate : JValue → VResult Balance
  | .obj kvs =>
      (((VResult.ok Balance.mk).seq
        (fieldOptStrV "@type" kvs Balance.validate_type)).seq
        (fieldOptStrV "@currency" kvs Balance.validate_currency)).seq
        (fieldOptIntP "balance" kvs)
  | _ => .errs [⟨"model_type", [], "Input should be a valid dictionary"⟩]

def Balance.model_dump (x : Balance) : JValue :=
  .obj [("type", jOfOptStr x.type), ("currency", jOfOptStr x.currency),
        ("balance", jOfOptInt x.balance)]

/-- Embeds `class Finance`. -/
structure Finance where
  method : Option String
  amount : Option Amount
  balance : Option Balance

/-- Embeds `Finance.validate_method` (its message reads `Invalid Status
input`, as in the source). -/
def Finance.validate_method (v : Option String) : VResult (Option String) :=
  match v with
  | none => .ok none
  | some s =>
      if s == "cash" || s == "finance" || s == "lease" then .ok (some s)
      else verr "Invalid Status input"

def Finance.validate : JValue → VResult Finance
  | .obj kvs =>
      (((VResult.ok Finance.mk).seq
        (fieldOptStrV "method" kvs Finance.validate_method)).seq
        (fieldModel "amount" kvs Amount.validate)).seq
        (fieldModel "balance" kvs Balance.validate)
  | _ => .errs [⟨"model_type", [], "Input should be a valid dictionary"⟩]

def Finance.model_dump (x : Finance) : JValue :=
  .obj [("method", jOfOptStr x.method), ("amount", jOfOpt Amount.model_dump x.amount),
        ("balance", jOfOpt Balance.model_dump x.balance)]

/-- The union `Union[ColorCombination, List[ColorCombination]]`. -/
inductive CCU where
  | one (c : ColorCombination)
  | many (cs : List ColorCombination)

/-- Smart-union dispatch for `Union[ColorCombination, List[ColorCombination]]`:
a raw sequence can only fit the list member, anything else only the model
member (whose own validation rejects non-dictionaries). -/
def ccUnion (j : JValue) : VResult CCU :=
  match j with
  | .arr xs => (vlist ColorCombination.validate xs 0).map CCU.many |> withKey "list[ColorCombination]"
  | v => (ColorCombination.validate v).map CCU.one |> withKey "ColorCombination"

def CCU.model_dump : CCU → JValue
  | .one c => c.model_dump
  | .many cs => .arr (cs.map ColorCombination.model_dump)

/-- Embeds `class Vehicle`.  `year`, `make`, `model` are non-optional
(`str`), so pydantic itself enforces their presence. -/
structure Vehicle where
  interest : Option String
  status : Option String
  id : Option Id
  year : String
  make : String
  model : String
  vin : Option String
  stock : Option String
  trim : Option String
  doors : Option String
  bodystyle : Option String
  odometer : Option Odometer
  condition : Option String
  color_combination : Option CCU
  imagetag : Option ImageTag
  price : Option Price
  price_comments : Option String
  option : Option VOption
  finance : Option Finance
  comments : Option String

/-- Embeds `Vehicle.validate_interest`. -/
def Vehicle.validate_interest (v : Option String) : VResult (Option String) :=
  match v with
  | none => .ok none
  | some s =>
      if s == "buy" || s == "lease" || s == "sell" || s == "trade-in" || s == "test-drive" then
        .ok (some s)
      else verr "Invalid Interest input"

/-- Embeds `Vehicle.validate_status`. -/
def Vehicle.validate_status (v : Option String) : VResult (Option String) :=
  match v with
  | none => .ok none
  | some s => if s == "new" || s == "used" then .ok (some s) else verr "Invalid Status input"

/-- Embeds `Vehicle.validate_conditon`. -/
def Vehicle.validate_conditon (v : Option String) : VResult (Option String) :=
  match v with
  | none => .ok none
  | some s =>
      if s == "excellent" || s == "good" || s == "fair" || s == "poor" || s == "unknown" then
        .ok (some s)
      else verr "Invalid Condition input"

/-- Per-field validation of `Vehicle`, in declaration order. -/
def Vehicle.fieldStage (kvs : List (String × JValue)) : VResult Vehicle :=
  ((((((((((((((((((((VResult.ok Vehicle.mk).seq
    (fieldOptStrV "@interest" kvs Vehicle.validate_interest)).seq
    (fieldOptStrV "@status" kvs Vehicle.validate_status)).seq
    (fieldModel "id" kvs Id.validate)).seq
    (fieldReqStr "year" kvs)).seq
    (fieldReqStr "make" kvs)).seq
    (fieldReqStr "model" kvs)).seq
    (fieldOptStrP "vin" kvs)).seq
    (fieldOptStrP "stock" kvs)).seq
    (fieldOptStrP "trim" kvs)).seq
    (fieldOptStrP "doors" kvs)).seq
    (fieldOptStrP "bodystyle" kvs)).seq
    (fieldModel "odometer" kvs Odometer.validate)).seq
    (fieldOptStrV "condition" kvs Vehicle.validate_conditon)).seq
    (fieldModel "color_combination" kvs ccUnion)).seq
    (fieldModel "imagetag" kvs ImageTag.validate)).seq
    (fieldModel "price" kvs Price.validate)).seq
    (fieldOptStrP "price_comments" kvs)).seq
    (fieldModel "option" kvs VOption.validate)).seq
    (fieldModel "finance" kvs Finance.validate)).seq
    (fieldOptStrP "comments" kvs)

/-- Embeds `Vehicle.check_required_fields`.  Since `year`, `make`, `model`
are non-optional `str` fields, after successful field validation none of
them can be `None`, so the dynamic check never collects a field and the
validator always returns the vehicle unchanged. -/
def Vehicle.check_required_fields (v : Vehicle) : VResult Vehicle := .ok v

def Vehicle.validate : JValue → VResult Vehicle
  | .obj kvs => (Vehicle.fieldStage kvs).thenPost Vehicle.check_required_fields
  | _ => .errs [⟨"model_type", [], "Input should be a valid dictionary"⟩]

def Vehicle.model_dump (x : Vehicle) : JValue :=
  .obj [("interest", jOfOptStr x.interest), ("status", jOfOptStr x.status),
        ("id", jOfOpt Id.model_dump x.id), ("year", .str x.year),
        ("make", .str x.make), ("model", .str x.model), ("vin", jOfOptStr x.vin),
        ("stock", jOfOptStr x.stock), ("trim", jOfOptStr x.trim),
        ("doors", jOfOptStr x.doors), ("bodystyle", jOfOptStr x.bodystyle),
        ("odometer", jOfOpt Odometer.model_dump x.odometer),
        ("condition", jOfOptStr x.condition),
        ("color_combination", jOfOpt CCU.model_dump x.color_combination),
        ("imagetag", jOfOpt ImageTag.model_dump x.imagetag),
        ("price", jOfOpt Price.model_dump x.price),
        ("price_comments", jOfOptStr x.price_comments),
        ("option", jOfOpt VOption.model_dump x.option),
        ("finance", jOfOpt Finance.model_dump x.finance),
        ("comments", jOfOptStr x.comments)]

/-- Embeds `class Name`. -/
structure Name where
  part : Option String
  type : Option String
  name : Option String

/-- Embeds `Name.validate_part`. -/
def Name.validate_part (v : Option String) : VResult (Option String) :=
  match v with
  | none => .ok none
  | some s =>
      if s == "first" || s == "middle" || s == "suffix" || s == "last" || s == "full" then
        .ok (some s)
      else verr "Invalid Name Part input"

/-- Embeds `Name.validate_type`. -/
def Name.validate_type (v : Option String) : VResult (Option String) :=
  match v with
  | none => .ok none
  | some s =>
      if s == "individual" || s == "business" then .ok (some s)
      else verr "Invalid Name Type input"

def Name.validate : JValue → VResult Name
  | .obj kvs =>
      (((VResult.ok Name.mk).seq
        (fieldOptStrV "@part" kvs Name.validate_part)).seq
        (fieldOptStrV "@type" kvs Name.validate_type)).seq
        (fieldOptStrP "#text" kvs)
  | _ => .errs [⟨"model_type", [], "Input should be a valid dictionary"⟩]

def Name.model_dump (x : Name) : JValue :=
  .obj [("part", jOfOptStr x.part), ("type", jOfOptStr x.type),
        ("name", jOfOptStr x.name)]

/-- Embeds `class Email` (no validators). -/
structure Email where
  preferred_contact : Option Int
  email : Option String

def Email.validate : JValue → VResult Email
  | .obj kvs =>
      ((VResult.ok Email.mk).seq
        (fieldOptIntP "@preferredcontact" kvs)).seq
        (fieldOptStrP "#text" kvs)
  | _ => .errs [⟨"model_type", [], "Input should be a valid dictionary"⟩]

def Email.model_dump (x : Email) : JValue :=
  .obj [("preferred_contact", jOfOptInt x.preferred_contact),
        ("email", jOfOptStr x.email)]

/-- Embeds `class Phone`. -/
structure Phone where
  type : Option String
  time : Option String
  preferred_contact : Option Int
  phone : Option String

/-- Embeds `Phone.validate_type`. -/
def Phone.validate_type (v : Option String) : VResult (Option String) :=
  match v with
  | none => .ok none
  | some s =>
      if s == "phone" || s == "fax" || s == "cellphone" || s == "pager" then .ok (some s)
      else verr "Invalid Phone Type input"

/-- Embeds `Phone.validate_time`. -/
def Phone.validate_time (v : Option String) : VResult (Option String) :=
  match v with
  | none => .ok none
  | some s =>
      if s == "morning" || s == "afternoon" || s == "evening" || s == "nopreference" ||
          s == "day" then .ok (some s)
      else verr "Invalid Phone Time input"

def Phone.validate : JValue → VResult Phone
  | .obj kvs =>
      ((((VResult.ok Phone.mk).seq
        (fieldOptStrV "@type" kvs Phone.validate_type)).seq
        (fieldOptStrV "@time" kvs Phone.validate_time)).seq
        (fieldOptIntP "@preferredcontact" kvs)).seq
        (fieldOptStrP "#text" kvs)
  | _ => .errs [⟨"model_type", [], "Input should be a valid dictionary"⟩]

def Phone.model_dump (x : Phone) : JValue :=
  .obj [("type", jOfOptStr x.type), ("time", jOfOptStr x.time),
        ("preferred_contact", jOfOptInt x.preferred_contact),
        ("phone", jOfOptStr x.phone)]

/-- Embeds `class Street`. -/
structure Street where
  line : Option String
  street : Option String

/-- Embeds `Street.validate_line`. -/
def Street.validate_line (v : Option String) : VResult (Option String) :=
  match v with
  | none => .ok none
  | some s =>
      if s == "1" || s == "2" || s == "3" || s == "4" || s == "5" then .ok (some s)
      else verr "Invalid Street Line input"

def Street.validate : JValue → VResult Street
  | .obj kvs =>
      ((VResult.ok Street.mk).seq
        (fieldOptStrV "@line" kvs Street.validate_line)).seq
        (fieldOptStrP "#text" kvs)
  | _ => .errs [⟨"model_type", [], "Input should be a valid dictionary"⟩]

def Street.model_dump (x : Street) : JValue :=
  .obj [("line", jOfOptStr x.line), ("street", jOfOptStr x.street)]

/-- Embeds `class Address`. -/
structure Address where
  type : Option String
  street : Option Street
  apartment : Option String
  city : Option String
  regioncode : Option String
  postalcode : Option String
  country : Option String

/-- Embeds `Address.validate_type`. -/
def Address.validate_type (v : Option String) : VResult (Option String) :=
  match v with
  | none => .ok none
  | some s =>
      if s == "work" || s == "home" || s == "delivery" then .ok (some s)
      else verr "Invalid Address Type input"

/-- Embeds `Address.validate_country`: `is_valid_iso_3166_alpha_2(value)`.
With `value = None`, `pycountry.countries.lookup(None)` raises
(lookup of a non-string), which the source's `except LookupError` does not
catch: modelled as a crash. -/
def Address.validate_country (v : Option String) : VResult (Option String) :=
  match v with
  | none => .crash "TypeError"
  | some s => if is_valid_iso_3166_alpha_2 s then .ok (some s) else verr "Invalid Country input"

def Address.validate : JValue → VResult Address
  | .obj kvs =>
      (((((((VResult.ok Address.mk).seq
        (fieldOptStrV "@type" kvs Address.validate_type)).seq
        (fieldModel "street" kvs Street.validate)).seq
        (fieldOptStrP "apartment" kvs)).seq
        (fieldOptStrP "city" kvs)).seq
        (fieldOptStrP "regioncode" kvs)).seq
        (fieldOptStrP "postalcode" kvs)).seq
        (fieldOptStrV "country" kvs Address.validate_country)
  | _ => .errs [⟨"model_type", [], "Input should be a valid dictionary"⟩]

def Address.model_dump (x : Address) : JValue :=
  .obj [("type", jOfOptStr x.type), ("street", jOfOpt Street.model_dump x.street),
        ("apartment", jOfOptStr x.apartment), ("city", jOfOptStr x.city),
        ("regioncode", jOfOptStr x.regioncode), ("postalcode", jOfOptStr x.postalcode),
        ("country", jOfOptStr x.country)]

/-- The union `Union[str, Name, List[Name]]`. -/
inductive NameU where
  | s (v : String)
  | one (n : Name)
  | many (ns : List Name)

/-- Smart-union dispatch for `Union[str, Name, List[Name]]`: a raw string
fits only `str`, a raw mapping only `Name`, a raw sequence only
`List[Name]`. -/
def nameUnion (j : JValue) : VResult NameU :=
  match j with
  | .str v => .ok (NameU.s v)
  | .arr xs => ((vlist Name.validate xs 0).map NameU.many) |> withKey "list[Name]"
  | .obj kvs => ((Name.validate (.obj kvs)).map NameU.one) |> withKey "Name"
  | _ => .errs [⟨"string_type", [], "Input should be a valid string"⟩]

def NameU.model_dump : NameU → JValue
  | .s v => .str v
  | .one n => n.model_dump
  | .many ns => .arr (ns.map Name.model_dump)

/-- The union `Union[str, Email]`. -/
inductive EmailU where
  | s (v : String)
  | one (e : Email)

/-- Smart-union dispatch for `Union[str, Email]`. -/
def emailUnion (j : JValue) : VResult EmailU :=
  match j with
  | .str v => .ok (EmailU.s v)
  | .obj kvs => ((Email.validate (.obj kvs)).map EmailU.one) |> withKey "Email"
  | _ => .errs [⟨"string_type", [], "Input should be a valid string"⟩]

def EmailU.model_dump : EmailU → JValue
  | .s v => .str v
  | .one e => e.model_dump

/-- The union `Union[str, Phone, List[Phone]]`. -/
inductive PhoneU where
  | s (v : String)
  | one (p : Phone)
  | many (ps : List Phone)

/-- Smart-union dispatch for `Union[str, Phone, List[Phone]]`. -/
def phoneUnion (j : JValue) : VResult PhoneU :=
  match j with
  | .str v => .ok (PhoneU.s v)
  | .arr xs => ((vlist Phone.validate xs 0).map PhoneU.many) |> withKey "list[Phone]"
  | .obj kvs => ((Phone.validate (.obj kvs)).map PhoneU.one) |> withKey "Phone"
  | _ => .errs [⟨"string_type", [], "Input should be a valid string"⟩]

def PhoneU.model_dump : PhoneU → JValue
  | .s v => .str v
  | .one p => p.model_dump
  | .many ps => .arr (ps.map Phone.model_dump)

/-- Embeds `class Contact`. -/
structure Contact where
  primary_contact : Option Int
  name : Option NameU
  email : Option EmailU
  phone : Option PhoneU
  address : Option Address

/-- Per-field validation of `Contact`, in declaration order. -/
def Contact.fieldStage (kvs : List (String × JValue)) : VResult Contact :=
  (((((VResult.ok Contact.mk).seq
    (fieldOptIntP "@primarycontact" kvs)).seq
    (fieldModel "name" kvs nameUnion)).seq
    (fieldModel "email" kvs emailUnion)).seq
    (fieldModel "phone" kvs phoneUnion)).seq
    (fieldModel "address" kvs Address.validate)

/-- Embeds `Contact.check_required_fields`: required set `{"name"}`. -/
def Contact.check_required_fields (c : Contact) : VResult Contact :=
  if c.name.isNone then
    .errs [⟨"value_error", [],
      "Value error, The following required fields in Contact are missing: name"⟩]
  else .ok c

def Contact.validate : JValue → VResult Contact
  | .obj kvs => (Contact.fieldStage kvs).thenPost Contact.check_required_fields
  | _ => .errs [⟨"model_type", [], "Input should be a valid dictionary"⟩]

def Contact.model_dump (x : Contact) : JValue :=
  .obj [("primary_contact", jOfOptInt x.primary_contact),
        ("name", jOfOpt NameU.model_dump x.name),
        ("email", jOfOpt EmailU.model_dump x.email),
        ("phone", jOfOpt PhoneU.model_dump x.phone),
        ("address", jOfOpt Address.model_dump x.address)]

/-- Embeds `class TimeFrame`. -/
structure TimeFrame where
  description : Option String
  earliest_date : Option String
  latest_date : Option String

/-- Embeds `TimeFrame.validate_earliest_date`: `is_iso8601(value)`.  With
`value = None`, `datetime.fromisoformat(None)` raises `TypeError`. -/
def TimeFrame.validate_earliest_date (v : Option String) : VResult (Option String) :=
  match v with
  | none => .crash "TypeError"
  | some s => if is_iso8601 s then .ok (some s) else verr "Invalid Earliest Date input"

/-- Embeds `TimeFrame.validate_latest_date`. -/
def TimeFrame.validate_latest_date (v : Option String) : VResult (Option String) :=
  match v with
  | none => .crash "TypeError"
  | some s => if is_iso8601 s then .ok (some s) else verr "Invalid Latest Date input"

def TimeFrame.fieldStage (kvs : List (String × JValue)) : VResult TimeFrame :=
  (((VResult.ok TimeFrame.mk).seq
    (fieldOptStrP "description" kvs)).seq
    (fieldOptStrV "earliest_date" kvs TimeFrame.validate_earliest_date)).seq
    (fieldOptStrV "latest_date" kvs TimeFrame.validate_latest_date)

/-- Embeds `TimeFrame.validate_dates` (the `@model_validator`; its
`print(values)` side effect is not part of the validation outcome). -/
def TimeFrame.validate_dates (t : TimeFrame) : VResult TimeFrame :=
  if t.earliest_date.isNone && t.latest_date.isNone then
    .errs [⟨"value_error", [],
      "Value error, At least one of 'earliest_date' or 'latest_date' must be provided."⟩]
  else .ok t

def TimeFrame.validate : JValue → VResult TimeFrame
  | .obj kvs => (TimeFrame.fieldStage kvs).thenPost TimeFrame.validate_dates
  | _ => .errs [⟨"model_type", [], "Input should be a valid dictionary"⟩]

def TimeFrame.model_dump (x : TimeFrame) : JValue :=
  .obj [("description", jOfOptStr x.description),
        ("earliest_date", jOfOptStr x.earliest_date),
        ("latest_date", jOfOptStr x.latest_date)]

/-- Embeds `class Customer`. -/
structure Customer where
  contact : Option Contact
  id : Option Id
  timeframe : Option TimeFrame
  comments : Option String

/-- Embeds `Customer.check_required_fields`: its required set is empty, so
the check never fires. -/
def Customer.check_required_fields (c : Customer) : VResult Customer := .ok c

def Customer.validate : JValue → VResult Customer
  | .obj kvs =>
      (((((VResult.ok Customer.mk).seq
        (fieldModel "contact" kvs Contact.validate)).seq
        (fieldModel "id" kvs Id.validate)).seq
        (fieldModel "timeframe" kvs TimeFrame.validate)).seq
        (fieldOptStrP "comments" kvs)).thenPost Customer.check_required_fields
  | _ => .errs [⟨"model_type", [], "Input should be a valid dictionary"⟩]

def Customer.model_dump (x : Customer) : JValue :=
  .obj [("contact", jOfOpt Contact.model_dump x.contact),
        ("id", jOfOpt Id.model_dump x.id),
        ("timeframe", jOfOpt TimeFrame.model_dump x.timeframe),
        ("comments", jOfOptStr x.comments)]

/-- Embeds `class Vendor`. -/
structure Vendor where
  id : Option Id
  vendorname : Option String
  url : Option String
  contact : Option Contact

def Vendor.fieldStage (kvs : List (String × JValue)) : VResult Vendor :=
  ((((VResult.ok Vendor.mk).seq
    (fieldModel "id" kvs Id.validate)).seq
    (fieldOptStrP "vendorname" kvs)).seq
    (fieldOptStrP "url" kvs)).seq
    (fieldModel "contact" kvs Contact.validate)

/-- Embeds `Vendor.check_required_fields`: required set `{"vendorname"}`. -/
def Vendor.check_required_fields (v : Vendor) : VResult Vendor :=
  if v.vendorname.isNone then
    .errs [⟨"value_error", [],
      "Value error, The following required fields in Vendor are missing: vendorname"⟩]
  else .ok v

def Vendor.validate : JValue → VResult Vendor
  | .obj kvs => (Vendor.fieldStage kvs).thenPost Vendor.check_required_fields
  | _ => .errs [⟨"model_type", [], "Input should be a valid dictionary"⟩]

def Vendor.model_dump (x : Vendor) : JValue :=
  .obj [("id", jOfOpt Id.model_dump x.id), ("vendorname", jOfOptStr x.vendorname),
        ("url", jOfOptStr x.url), ("contact", jOfOpt Contact.model_dump x.contact)]

/-- Embeds `class Provider`. -/
structure Provider where
  id : Option Id
  name : Option Name
  service : Option String
  url : Option String
  email : Option Email
  phone : Option Phone
  contact : Option Contact

def Provider.fieldStage (kvs : List (String × JValue)) : VResult Provider :=
  (((((((VResult.ok Provider.mk).seq
    (fieldModel "id" kvs Id.validate)).seq
    (fieldModel "name" kvs Name.validate)).seq
    (fieldOptStrP "service" kvs)).seq
    (fieldOptStrP "url" kvs)).seq
    (fieldModel "email" kvs Email.validate)).seq
    (fieldModel "phone" kvs Phone.validate)).seq
    (fieldModel "contact" kvs Contact.validate)

/-- Embeds `Provider.check_required_fields`: required set `{"name"}`. -/
def Provider.check_required_fields (p : Provider) : VResult Provider :=
  if p.name.isNone then
    .errs [⟨"value_error", [],
      "Value error, The following required fields in Provider are missing: name"⟩]
  else .ok p

def Provider.validate : JValue → VResult Provider
  | .obj kvs => (Provider.fieldStage kvs).thenPost Provider.check_required_fields
  | _ => .errs [⟨"model_type", [], "Input should be a valid dictionary"⟩]

def Provider.model_dump (x : Provider) : JValue :=
  .obj [("id", jOfOpt Id.model_dump x.id), ("name", jOfOpt Name.model_dump x.name),
        ("service", jOfOptStr x.service), ("url", jOfOptStr x.url),
        ("email", jOfOpt Email.model_dump x.email),
        ("phone", jOfOpt Phone.model_dump x.phone),
        ("contact", jOfOpt Contact.model_dump x.contact)]

/-- The union `Union[Vehicle, List[Vehicle]]`. -/
inductive VehicleU where
  | one (v : Vehicle)
  | many (vs : List Vehicle)

/-- Smart-union dispatch for `Union[Vehicle, List[Vehicle]]`. -/
def vehicleUnion (j : JValue) : VResult VehicleU :=
  match j with
  | .arr xs => ((vlist Vehicle.validate xs 0).map VehicleU.many) |> withKey "list[Vehicle]"
  | v => ((Vehicle.validate v).map VehicleU.one) |> withKey "Vehicle"

def VehicleU.model_dump : VehicleU → JValue
  | .one v => v.model_dump
  | .many vs => .arr (vs.map Vehicle.model_dump)

/-- Embeds `class Prospect` (no validators of its own; note that
`request_date` carries no format validator). -/
structure Prospect where
  status : Option String
  id : Option Id
  request_date : Option String
  vehicle : Option VehicleU
  customer : Option Customer
  vendor : Option Vendor
  provider : Option Provider

def Prospect.validate : JValue → VResult Prospect
  | .obj kvs =>
      (((((((VResult.ok Prospect.mk).seq
        (fieldOptStrP "@status" kvs)).seq
        (fieldModel "id" kvs Id.validate)).seq
        (fieldOptStrP "requestdate" kvs)).seq
        (fieldModel "vehicle" kvs vehicleUnion)).seq
        (fieldModel "customer" kvs Customer.validate)).seq
        (fieldModel "vendor" kvs Vendor.validate)).seq
        (fieldModel "provider" kvs Provider.validate)
  | _ => .errs [⟨"model_type", [], "Input should be a valid dictionary"⟩]

def Prospect.model_dump (x : Prospect) : JValue :=
  .obj [("status", jOfOptStr x.status), ("id", jOfOpt Id.model_dump x.id),
        ("request_date", jOfOptStr x.request_date),
        ("vehicle", jOfOpt VehicleU.model_dump x.vehicle),
        ("customer", jOfOpt Customer.model_dump x.customer),
        ("vendor", jOfOpt Vendor.model_dump x.vendor),
        ("provider", jOfOpt Provider.model_dump x.provider)]

/-- Embeds `class ADF`. -/
structure ADF where
  prospect : Option Prospect

def ADF.validate : JValue → VResult ADF
  | .obj kvs =>
      (VResult.ok ADF.mk).seq (fieldModel "prospect" kvs Prospect.validate)
  | _ => .errs [⟨"model_type", [], "Input should be a valid dictionary"⟩]

def ADF.model_dump (x : ADF) : JValue :=
  .obj [("prospect", jOfOpt Prospect.model_dump x.prospect)]

/-- Embeds `class Lead`, the root model built by `Lead(**data)`. -/
structure Lead where
  adf : Option ADF

def Lead.validate : JValue → VResult Lead
  | .obj kvs => (VResult.ok Lead.mk).seq (fieldModel "adf" kvs ADF.validate)
  | _ => .errs [⟨"model_type", [], "Input should be a valid dictionary"⟩]

def Lead.model_dump (x : Lead) : JValue :=
  .obj [("adf", jOfOpt ADF.model_dump x.adf)]

/-! ### The script's user-visible reporting (the `except` branches) -/

/-- Summary text of `str(ValidationError)` as printed by
`print("Validation error occured:", e)`: one line per collected error,
giving its dotted `loc` path and message (pydantic's exact layout carries
extra detail; the dotted path and message are what the development relies
on). -/
def errorSummary (es : List PError) : String :=
  String.intercalate "\n" (es.map fun e => String.intercalate "." e.loc ++ ": " ++ e.msg)

/-- The `error_messages` list collected by the `except ValidationError`
handler: the messages of the errors whose `type` is `value_error`. -/
def valueErrorMsgs (es : List PError) : List String :=
  (es.filter fun e => e.type == "value_error").map fun e => e.msg

/-- Embeds the `except ValidationError` handler: print the collected
`value_error` messages one per line when any exist, otherwise fall back to
the generic `Validation error occured: ...` notice. -/
def errorOutput (es : List PError) : String :=
  if valueErrorMsgs es = [] then "Validation error occured: " ++ errorSummary es
  else String.intercalate "\n" (valueErrorMsgs es)

/-- What the script prints when `Lead(**data)` does not succeed: the
validation-error handler's text, or the `except Exception` notice for an
exception (such as `TypeError`) escaping a validator.  `none` on success
(the success path prints the model and its dump, which no claim concerns). -/
def failureOutput (j : JValue) : Option String :=
  match Lead.validate j with
  | .ok _ => none
  | .errs es => some (errorOutput es)
  | .crash m => some ("An error occurred: " ++ m)

/-- Outcome of the I/O prologue feeding `Lead(**data)`. -/
inductive LoadOutcome where
  | fileNotFound
  | badJson
  | loaded (j : JValue)

/-- Embeds the script's whole `try/except` reporting: the
`except FileNotFoundError` and `except json.JSONDecodeError` branches print
fixed category-labelled messages, a loaded document goes to validation. -/
def runMessage : LoadOutcome → Option String
  | .fileNotFound => some "File not found. Please provide a valid file path."
  | .badJson => some "Invalid JSON format in the file."
  | .loaded j => failureOutput j

/-! ### Round-trip helpers -/

/-- Drop `null`-valued keys from a tree, to depth `fuel` (the claims'
round-trip equivalence lets nulls for absent optional fields be added or
omitted; the documents compared here are of depth below any fuel used). -/
def stripNullsF : Nat → JValue → JValue
  | 0, v => v
  | fuel + 1, .obj kvs =>
      .obj (kvs.foldr
        (fun kv acc =>
          match kv with
          | (_, .null) => acc
          | (k, v) => (k, stripNullsF fuel v) :: acc)
        [])
  | fuel + 1, .arr xs => .arr (xs.map (stripNullsF fuel))
  | _, v => v

def stripNulls (v : JValue) : JValue := stripNullsF 32 v

/-- Navigate a tree along a key path. -/
def lookupPath : JValue → List String → Option JValue
  | v, [] => some v
  | .obj kvs, k :: ks =>
      match jget kvs k with
      | some w => lookupPath w ks
      | none => none
  | _, _ :: _ => none

/-- Validate then re-flatten: the script's `lead.model_dump()` after
`Lead(**data)` (null when validation did not succeed). -/
def dumpAfterValidate (j : JValue) : JValue :=
  match Lead.validate j with
  | .ok l => l.model_dump
  | _ => .null

/-- Whether `needle` starts `hay`. -/
def charsStartWith : List Char → List Char → Bool
  | [], _ => true
  | _ :: _, [] => false
  | a :: as, b :: bs => a == b && charsStartWith as bs

/-- Whether `needle` occurs somewhere in `hay`. -/
def charsMention (needle : List Char) : List Char → Bool
  | [] => charsStartWith needle []
  | b :: bs => charsStartWith needle (b :: bs) || charsMention needle bs

/-- Whether `needle` occurs in `hay` as a substring. -/
def mentions (needle hay : String) : Bool :=
  charsMention needle.data hay.data

/-! ### Concrete documents used by the claims -/

/-- The §8 example scenario input. -/
def exampleDoc : JValue :=
  .obj [("adf", .obj [("prospect", .obj [
    ("vehicle", .obj [("year", .str "2023"), ("make", .str "Hyundai"),
                      ("model", .str "i30")]),
    ("customer", .obj [("contact", .obj [("name", .str "John B")])])])])]

/-- The §8 example with the prospect's `@status` attribute key added. -/
def exampleDocStatus : JValue :=
  .obj [("adf", .obj [("prospect", .obj [
    ("@status", .str "new"),
    ("vehicle", .obj [("year", .str "2023"), ("make", .str "Hyundai"),
                      ("model", .str "i30")]),
    ("customer", .obj [("contact", .obj [("name", .str "John B")])])])])]

/-- A document whose vehicle price carries `"@currency": "US"` — the
standard ADF attribute key for the currency of a price. -/
def docPriceAtCurrencyUS : JValue :=
  .obj [("adf", .obj [("prospect", .obj [
    ("vehicle", .obj [("year", .str "2023"), ("make", .str "Hyundai"),
                      ("model", .str "i30"),
                      ("price", .obj [("@currency", .str "US")])])])])]

/-- The same document with the currency supplied under the mistyped alias
`"@curreny"` that the `Price` model actually reads, plus an independent
violation (`odometer."@units" = "miles"`). -/
def docPriceCurrenyUS : JValue :=
  .obj [("adf", .obj [("prospect", .obj [
    ("vehicle", .obj [("year", .str "2023"), ("make", .str "Hyundai"),
                      ("model", .str "i30"),
                      ("odometer", .obj [("@units", .str "miles")]),
                      ("price", .obj [("@curreny", .str "US")])])])])]

/-- A vendor document in which the required `Contact.name` is missing while
another field of the same `Contact` record (`address."@type"`) is invalid. -/
def docMissingNameBadAddress : JValue :=
  .obj [("adf", .obj [("prospect", .obj [
    ("vendor", .obj [("vendorname", .str "V"),
                     ("contact", .obj [("address", .obj [("@type", .str "office")])])])])])]

/-- A document whose vehicle lacks the required `year`. -/
def docMissingYear : JValue :=
  .obj [("adf", .obj [("prospect", .obj [
    ("vehicle", .obj [("make", .str "Hyundai"), ("model", .str "i30")])])])]

/-- A document whose prospect's `requestdate` is not a date at all. -/
def docBadRequestDate : JValue :=
  .obj [("adf", .obj [("prospect", .obj [("requestdate", .str "hello")])])]

/-! ### Error-propagation lemmas

A field result that crashed, or that already carries a given error, keeps
that property through the sequential combination of the remaining fields;
this is how a `missing` entry of one field survives into the final error
list. -/

/-- The result `r` crashed or already carries the error `p`. -/
def carries {α : Type} (p : PError) (r : VResult α) : Prop :=
  (∃ m, r = .crash m) ∨ ∃ es, r = .errs es ∧ p ∈ es

theorem carries_seq_left {α β : Type} {p : PError} {f : VResult (α → β)} (x : VResult α)
    (h : carries p f) : carries p (f.seq x) := by
  rcases h with ⟨m, rfl⟩ | ⟨es, rfl, hp⟩
  · cases x with
    | ok a => exact Or.inl ⟨m, rfl⟩
    | errs e2 => exact Or.inl ⟨m, rfl⟩
    | crash m2 => exact Or.inl ⟨m, rfl⟩
  · cases x with
    | ok a => exact Or.inr ⟨es, rfl, hp⟩
    | errs e2 => exact Or.inr ⟨es ++ e2, rfl, List.mem_append_left _ hp⟩
    | crash m2 => exact Or.inl ⟨m2, rfl⟩

theorem carries_seq_right {α β : Type} {p : PError} (f : VResult (α → β)) {es : List PError}
    (hp : p ∈ es) : carries p (f.seq (.errs es)) := by
  cases f with
  | ok g => exact Or.inr ⟨es, rfl, hp⟩
  | errs e1 => exact Or.inr ⟨e1 ++ es, rfl, List.mem_append_right _ hp⟩
  | crash m => exact Or.inl ⟨m, rfl⟩

theorem carries_errs {α : Type} {p : PError} {r : VResult α} {es : List PError}
    (h : carries p r) (hr : r = .errs es) : p ∈ es := by
  subst hr
  rcases h with ⟨m, hm⟩ | ⟨es', h', hp⟩
  · exact VResult.noConfusion hm
  · cases h'
    exact hp

theorem carries_thenPost_errs {α : Type} {p : PError} {r : VResult α}
    {post : α → VResult α} {es : List PError} (h : carries p r)
    (hr : r.thenPost post = .errs es) : p ∈ es := by
  cases r with
  | ok a =>
      rcases h with ⟨m, hm⟩ | ⟨es', h', _⟩
      · exact VResult.noConfusion hm
      · exact VResult.noConfusion h'
  | errs e =>
      have he : e = es := by
        have : VResult.errs (α := α) e = .errs es := hr
        cases this
        rfl
      subst he
      rcases h with ⟨m, hm⟩ | ⟨es', h', hp⟩
      · exact VResult.noConfusion hm
      · cases h'
        exact hp
  | crash m => exact VResult.noConfusion hr

/-! ### The claims -/

/-- C1, counterexample.  The claim says attribute keys such as `@status`
map back to the same keys on re-flattening.  They do not: the script calls
`lead.model_dump()` without `by_alias=True`, so dumping is by field name.
The §8 example tree extended with `"@status": "new"` validates, but its
dump holds the value under `status` and has no `@status` key at all. -/
theorem c1_alias_keys_not_reproduced :
    (Lead.validate exampleDocStatus).isOk = true
  ∧ lookupPath exampleDocStatus ["adf", "prospect", "@status"] = some (.str "new")
  ∧ lookupPath (dumpAfterValidate exampleDocStatus) ["adf", "prospect", "@status"] = none
  ∧ lookupPath (dumpAfterValidate exampleDocStatus) ["adf", "prospect", "status"] =
      some (.str "new") :=
  ⟨rfl, rfl, rfl, rfl⟩

/-- C1, amended.  Re-flattening serializes by field name (`model_dump()`
without `by_alias`), adding explicit nulls for absent optional fields.  The
§8 example tree, whose keys all coincide with field names, therefore
round-trips: it validates, and dropping the added nulls from the dump
reproduces the input tree exactly. -/
theorem c1_example_roundtrip :
    (Lead.validate exampleDoc).isOk = true
  ∧ stripNulls (dumpAfterValidate exampleDoc) = exampleDoc :=
  ⟨rfl, rfl⟩

/-- C3.  The `Price` model binds `currency` to the mistyped alias
`@curreny`, so a document carrying the standard attribute key
`"@currency": "US"` validates with no error at all, against the claim's
`price.currency = "US"` scenario; only under the mistyped key is the value
validated, and then its rejection is indeed collected together with an
independent violation elsewhere in the document. -/
theorem c3_curreny_alias_typo :
    (Lead.validate docPriceAtCurrencyUS).isOk = true
  ∧ Lead.validate docPriceCurrenyUS = .errs
      [⟨"value_error", ["adf", "prospect", "vehicle", "Vehicle", "odometer", "@units"],
        "Value error, Invalid Units input"⟩,
       ⟨"value_error", ["adf", "prospect", "vehicle", "Vehicle", "price", "@curreny"],
        "Value error, Invalid Currency input"⟩] :=
  ⟨rfl, rfl⟩

/-- C5.  An absent optional field is skipped entirely, and an explicit null
on an enumerated field is accepted (those validators admit `None`); but an
explicit null on a `weighting` or `preference` field reaches a validator
that compares `None` with an int and raises `TypeError`, so the run fails
instead of validating successfully. -/
theorem c5_null_crashes_numeric_validators :
    VOption.validate (.obj []) = .ok ⟨none, none, none, none, none⟩
  ∧ Odometer.validate (.obj [("@status", JValue.null)]) = .ok ⟨none, none, none⟩
  ∧ VOption.validate (.obj [("weighting", JValue.null)]) = .crash "TypeError"
  ∧ ColorCombination.validate (.obj [("preference", JValue.null)]) = .crash "TypeError" :=
  ⟨rfl, rfl, rfl, rfl⟩

/-- C6.  With both dates absent the either/or model validator fails as
claimed, and a single valid date with the other absent passes; but an
explicitly null date is fed to `is_iso8601`, where
`datetime.fromisoformat(None)` raises `TypeError`, so the
valid-plus-null combination crashes instead of satisfying the constraint. -/
theorem c6_timeframe_dates :
    TimeFrame.validate (.obj []) = .errs
      [⟨"value_error", [],
        "Value error, At least one of 'earliest_date' or 'latest_date' must be provided."⟩]
  ∧ TimeFrame.validate (.obj [("earliest_date", .str "2023-01-01")]) =
      .ok ⟨none, some "2023-01-01", none⟩
  ∧ TimeFrame.validate
      (.obj [("earliest_date", .str "2023-01-01"), ("latest_date", JValue.null)]) =
      .crash "TypeError" :=
  ⟨rfl, rfl, rfl⟩

/-- C7, counterexample.  `Prospect.request_date` carries no validator: a
document whose `requestdate` is `"hello"` — not a date — validates
successfully, against the claim that every date-like field rejects
unparseable values. -/
theorem c7_request_date_unvalidated :
    (Lead.validate docBadRequestDate).isOk = true ∧ is_iso8601 "hello" = false :=
  ⟨rfl, rfl⟩

/-- C7, amended.  Of the date-like fields, only `TimeFrame`'s two dates are
format-checked: a present non-null string failing `is_iso8601` is rejected
by each of them, while `Prospect.request_date` stores any string
unvalidated. -/
theorem c7_only_timeframe_dates_checked : ∀ s : String, is_iso8601 s = false →
    TimeFrame.validate_earliest_date (some s) =
      .errs [⟨"value_error", [], "Value error, Invalid Earliest Date input"⟩]
  ∧ TimeFrame.validate_latest_date (some s) =
      .errs [⟨"value_error", [], "Value error, Invalid Latest Date input"⟩]
  ∧ Prospect.validate (.obj [("requestdate", .str s)]) =
      .ok ⟨none, none, some s, none, none, none, none⟩ := by
  intro s h
  refine ⟨?_, ?_, rfl⟩
  · show (if is_iso8601 s then _ else verr "Invalid Earliest Date input") = _
    rw [h]
    rfl
  · show (if is_iso8601 s then _ else verr "Invalid Latest Date input") = _
    rw [h]
    rfl

/-- Witness for `c7_only_timeframe_dates_checked` at `s = "hello"`. -/
theorem c7_only_timeframe_dates_checked_witness :
    TimeFrame.validate_earliest_date (some "hello") =
      .errs [⟨"value_error", [], "Value error, Invalid Earliest Date input"⟩]
  ∧ Prospect.validate (.obj [("requestdate", .str "hello")]) =
      .ok ⟨none, none, some "hello", none, none, none, none⟩ :=
  ⟨(c7_only_timeframe_dates_checked "hello" rfl).1,
   (c7_only_timeframe_dates_checked "hello" rfl).2.2⟩

/-- C2, counterexample.  In `docMissingNameBadAddress` the required
`Contact.name` is missing, yet validation reports only the independent
address violation: field errors inside `Contact` pre-empt its
`check_required_fields` model validator, so no message names `name` and
the printed output does not mention it. -/
theorem c2_missing_name_unreported :
    Lead.validate docMissingNameBadAddress = .errs
      [⟨"value_error", ["adf", "prospect", "vendor", "contact", "address", "@type"],
        "Value error, Invalid Address Type input"⟩]
  ∧ failureOutput docMissingNameBadAddress = some "Value error, Invalid Address Type input"
  ∧ mentions "name" "Value error, Invalid Address Type input" = false :=
  ⟨rfl, rfl, rfl⟩

/-- C2, amended.  A missing required field always fails validation, and is
named in the collected error list under provisos: `Vehicle.year` /
`Vehicle.make` / `Vehicle.model` appear as pydantic `missing` entries in
any error list the run returns (the handler then only names them inside the
generic notice); `Contact.name`, `Vendor.vendorname` and `Provider.name`
yield the record-level `value_error` naming the field precisely when every
other field of that record validated successfully. -/
theorem c2_required_field_reporting :
    (∀ kvs es, jget kvs "year" = none → Vehicle.validate (.obj kvs) = .errs es →
       (⟨"missing", ["year"], "Field required"⟩ : PError) ∈ es)
  ∧ (∀ kvs es, jget kvs "make" = none → Vehicle.validate (.obj kvs) = .errs es →
       (⟨"missing", ["make"], "Field required"⟩ : PError) ∈ es)
  ∧ (∀ kvs es, jget kvs "model" = none → Vehicle.validate (.obj kvs) = .errs es →
       (⟨"missing", ["model"], "Field required"⟩ : PError) ∈ es)
  ∧ (∀ kvs r, Contact.fieldStage kvs = .ok r → r.name = none →
       Contact.validate (.obj kvs) = .errs [⟨"value_error", [],
         "Value error, The following required fields in Contact are missing: name"⟩])
  ∧ (∀ kvs r, Vendor.fieldStage kvs = .ok r → r.vendorname = none →
       Vendor.validate (.obj kvs) = .errs [⟨"value_error", [],
         "Value error, The following required fields in Vendor are missing: vendorname"⟩])
  ∧ (∀ kvs r, Provider.fieldStage kvs = .ok r → r.name = none →
       Provider.validate (.obj kvs) = .errs [⟨"value_error", [],
         "Value error, The following required fields in Provider are missing: name"⟩]) := by
  refine ⟨?_, ?_, ?_, ?_, ?_, ?_⟩
  · intro kvs es hy hv
    have hf : fieldReqStr "year" kvs = .errs [⟨"missing", ["year"], "Field required"⟩] := by
      unfold fieldReqStr
      rw [hy]
    have hc : carries ⟨"missing", ["year"], "Field required"⟩ (Vehicle.fieldStage kvs) := by
      unfold Vehicle.fieldStage
      iterate 16 apply carries_seq_left
      rw [hf]
      exact carries_seq_right _ (List.mem_singleton.mpr rfl)
    exact carries_thenPost_errs hc hv
  · intro kvs es hy hv
    have hf : fieldReqStr "make" kvs = .errs [⟨"missing", ["make"], "Field required"⟩] := by
      unfold fieldReqStr
      rw [hy]
    have hc : carries ⟨"missing", ["make"], "Field required"⟩ (Vehicle.fieldStage kvs) := by
      unfold Vehicle.fieldStage
      iterate 15 apply carries_seq_left
      rw [hf]
      exact carries_seq_right _ (List.mem_singleton.mpr rfl)
    exact carries_thenPost_errs hc hv
  · intro kvs es hy hv
    have hf : fieldReqStr "model" kvs = .errs [⟨"missing", ["model"], "Field required"⟩] := by
      unfold fieldReqStr
      rw [hy]
    have hc : carries ⟨"missing", ["model"], "Field required"⟩ (Vehicle.fieldStage kvs) := by
      unfold Vehicle.fieldStage
      iterate 14 apply carries_seq_left
      rw [hf]
      exact carries_seq_right _ (List.mem_singleton.mpr rfl)
    exact carries_thenPost_errs hc hv
  · intro kvs r hok hname
    have h1 : Contact.validate (.obj kvs) = Contact.check_required_fields r := by
      show (Contact.fieldStage kvs).thenPost _ = _
      rw [hok]
      rfl
    rw [h1]
    unfold Contact.check_required_fields
    rw [hname]
    rfl
  · intro kvs r hok hname
    have h1 : Vendor.validate (.obj kvs) = Vendor.check_required_fields r := by
      show (Vendor.fieldStage kvs).thenPost _ = _
      rw [hok]
      rfl
    rw [h1]
    unfold Vendor.check_required_fields
    rw [hname]
    rfl
  · intro kvs r hok hname
    have h1 : Provider.validate (.obj kvs) = Provider.check_required_fields r := by
      show (Provider.fieldStage kvs).thenPost _ = _
      rw [hok]
      rfl
    rw [h1]
    unfold Provider.check_required_fields
    rw [hname]
    rfl

/-- Witness for `c2_required_field_reporting` at concrete inputs: the empty
vehicle record (all three required fields absent) and the empty
vendor/contact/provider records. -/
theorem c2_required_field_reporting_witness :
    (⟨"missing", ["year"], "Field required"⟩ : PError) ∈
      [(⟨"missing", ["year"], "Field required"⟩ : PError),
       ⟨"missing", ["make"], "Field required"⟩, ⟨"missing", ["model"], "Field required"⟩]
  ∧ Contact.validate (.obj []) = .errs [⟨"value_error", [],
      "Value error, The following required fields in Contact are missing: name"⟩]
  ∧ Vendor.validate (.obj []) = .errs [⟨"value_error", [],
      "Value error, The following required fields in Vendor are missing: vendorname"⟩]
  ∧ Provider.validate (.obj []) = .errs [⟨"value_error", [],
      "Value error, The following required fields in Provider are missing: name"⟩] :=
  ⟨c2_required_field_reporting.1 [] _ rfl rfl,
   c2_required_field_reporting.2.2.2.1 [] ⟨none, none, none, none, none⟩ rfl rfl,
   c2_required_field_reporting.2.2.2.2.1 [] ⟨none, none, none, none⟩ rfl rfl,
   c2_required_field_reporting.2.2.2.2.2 [] ⟨none, none, none, none, none, none, none⟩ rfl rfl⟩

/-- C9, counterexample.  A document whose only violation is the missing
required `Vehicle.year` produces a single pydantic `missing` entry; the
handler's `value_error` filter leaves nothing to print and the single
generic `Validation error occured:` notice is emitted — exactly the
failure notice the claim rules out. -/
theorem c9_generic_notice_on_missing_field :
    Lead.validate docMissingYear = .errs
      [⟨"missing", ["adf", "prospect", "vehicle", "Vehicle", "year"], "Field required"⟩]
  ∧ failureOutput docMissingYear =
      some "Validation error occured: adf.prospect.vehicle.Vehicle.year: Field required" :=
  ⟨rfl, rfl⟩

/-- C9, amended.  On a validation failure the handler prints the collected
`value_error` messages one per line; when the collected errors include no
`value_error` (e.g. only `missing` entries) it prints the single generic
notice instead.  The two I/O failures are reported by fixed, distinct,
category-labelled messages, never conflated with validation output. -/
theorem c9_failure_output_policy :
    (∀ es : List PError, valueErrorMsgs es ≠ [] →
       errorOutput es = String.intercalate "\n" (valueErrorMsgs es))
  ∧ (∀ es : List PError, valueErrorMsgs es = [] →
       errorOutput es = "Validation error occured: " ++ errorSummary es)
  ∧ runMessage .fileNotFound = some "File not found. Please provide a valid file path."
  ∧ runMessage .badJson = some "Invalid JSON format in the file."
  ∧ runMessage .fileNotFound ≠ runMessage .badJson := by
  refine ⟨?_, ?_, rfl, rfl, by decide⟩
  · intro es h
    unfold errorOutput
    rw [if_neg h]
  · intro es h
    unfold errorOutput
    rw [if_pos h]

/-- Witness for `c9_failure_output_policy` at concrete error lists. -/
theorem c9_failure_output_policy_witness :
    errorOutput [⟨"value_error", [], "Value error, Invalid Units input"⟩] =
      "Value error, Invalid Units input"
  ∧ errorOutput [⟨"missing", ["year"], "Field required"⟩] =
      "Validation error occured: year: Field required" :=
  ⟨(c9_failure_output_policy.1 [⟨"value_error", [], "Value error, Invalid Units input"⟩]
      (by decide)).trans rfl,
   (c9_failure_output_policy.2.1 [⟨"missing", ["year"], "Field required"⟩] rfl).trans rfl⟩

/-- C4, counterexample.  `re.match(r"^[A-Z]{3}$", s)` also matches three
uppercase letters followed by one trailing newline (Python's `$`), so
`"USD\n"` — which is not exactly three uppercase letters — is accepted by
every currency validator, against the claim. -/
theorem c4_trailing_newline_accepted :
    is_valid_currency_code "USD\n" = true
  ∧ Price.validate_currency (some "USD\n") = .ok (some "USD\n")
  ∧ ("USD\n").data.length = 4 :=
  ⟨rfl, rfl, rfl⟩

/-- The regex acceptance condition, spelled out independently of the
definition: three uppercase ASCII letters, optionally followed by a single
trailing newline. -/
theorem currency_code_iff (s : String) :
    is_valid_currency_code s = true
  ↔ ∃ a b c, (s.data = [a, b, c] ∨ s.data = [a, b, c, '\n'])
      ∧ a.isUpper ∧ b.isUpper ∧ c.isUpper := by
  unfold is_valid_currency_code
  rcases hd : s.data with _ | ⟨a, _ | ⟨b, _ | ⟨c, _ | ⟨d, tl⟩⟩⟩⟩
  · change false = true ↔ _
    simp
  · change false = true ↔ _
    simp
  · change false = true ↔ _
    simp
  · change (a.isUpper && b.isUpper && c.isUpper) = true ↔ _
    constructor
    · intro h
      rw [Bool.and_eq_true, Bool.and_eq_true] at h
      exact ⟨a, b, c, Or.inl rfl, h.1.1, h.1.2, h.2⟩
    · rintro ⟨a', b', c', h | h, ha, hb, hc⟩
      · simp only [List.cons.injEq, and_true] at h
        obtain ⟨rfl, rfl, rfl⟩ := h
        rw [Bool.and_eq_true, Bool.and_eq_true]
        exact ⟨⟨ha, hb⟩, hc⟩
      · simp at h
  · cases tl with
    | nil =>
        change (a.isUpper && b.isUpper && c.isUpper && (d == '\n')) = true ↔ _
        constructor
        · intro h
          rw [Bool.and_eq_true, Bool.and_eq_true, Bool.and_eq_true] at h
          have hd4 : d = '\n' := eq_of_beq h.2
          subst hd4
          exact ⟨a, b, c, Or.inr rfl, h.1.1.1, h.1.1.2, h.1.2⟩
        · rintro ⟨a', b', c', h | h, ha, hb, hc⟩
          · simp at h
          · simp only [List.cons.injEq, and_true] at h
            obtain ⟨rfl, rfl, rfl, rfl⟩ := h
            rw [Bool.and_eq_true, Bool.and_eq_true, Bool.and_eq_true]
            exact ⟨⟨⟨ha, hb⟩, hc⟩, rfl⟩
    | cons e tl2 =>
        change false = true ↔ _
        simp

/-- C4, amended.  For every currency validator (`Price`, `Amount`,
`Balance`) a supplied string is accepted exactly when it is three uppercase
letters optionally followed by a single trailing newline; everything else
(`"usd"`, `"US"`, `"USDD"`, ...) is rejected with the currency-format
error. -/
theorem c4_currency_acceptance (s : String) :
    (Price.validate_currency (some s) = .ok (some s)
       ↔ ∃ a b c, (s.data = [a, b, c] ∨ s.data = [a, b, c, '\n'])
           ∧ a.isUpper ∧ b.isUpper ∧ c.isUpper)
  ∧ (Amount.validate_currency (some s) = .ok (some s)
       ↔ ∃ a b c, (s.data = [a, b, c] ∨ s.data = [a, b, c, '\n'])
           ∧ a.isUpper ∧ b.isUpper ∧ c.isUpper)
  ∧ (Balance.validate_currency (some s) = .ok (some s)
       ↔ ∃ a b c, (s.data = [a, b, c] ∨ s.data = [a, b, c, '\n'])
           ∧ a.isUpper ∧ b.isUpper ∧ c.isUpper) := by
  have hiff := currency_code_iff s
  by_cases h : is_valid_currency_code s = true
  · refine ⟨⟨fun _ => hiff.mp h, fun _ => ?_⟩, ⟨fun _ => hiff.mp h, fun _ => ?_⟩,
      ⟨fun _ => hiff.mp h, fun _ => ?_⟩⟩ <;>
      simp [Price.validate_currency, Amount.validate_currency, Balance.validate_currency, h]
  · refine ⟨⟨fun hx => ?_, fun hx => absurd (hiff.mpr hx) h⟩,
      ⟨fun hx => ?_, fun hx => absurd (hiff.mpr hx) h⟩,
      ⟨fun hx => ?_, fun hx => absurd (hiff.mpr hx) h⟩⟩ <;>
      simp [Price.validate_currency, Amount.validate_currency, Balance.validate_currency,
        h, verr] at hx

/-- C8.  `Option.validate_weighting` rejects `value >= 100 or value <=
-100`: an integer weighting is accepted by the `Option` record exactly when
it lies strictly between -100 and 100. -/
theorem c8_weighting_exclusive_range (n : Int) :
    VOption.validate (.obj [("weighting", JValue.int n)]) =
      .ok ⟨none, none, none, some n, none⟩
  ↔ (-100 < n ∧ n < 100) := by
  have hdef : VOption.validate (.obj [("weighting", JValue.int n)]) =
      ((VResult.ok (VOption.mk none none none)).seq
        (withKey "weighting" (VOption.validate_weighting (some n)))).seq (VResult.ok none) :=
    rfl
  have hw : VOption.validate_weighting (some n) =
      if 100 ≤ n ∨ n ≤ -100 then verrI "Invalid Weighting input" else .ok (some n) := rfl
  rw [hdef, hw]
  split_ifs with h
  · constructor
    · intro hx
      simp [verrI, withKey, VResult.seq] at hx
    · intro hr
      exfalso
      omega
  · constructor
    · intro _
      omega
    · intro _
      rfl

/-- C10.  `Id.sequence` (`Optional[PositiveInt]`, alias `@sequence`): a
supplied integer is accepted exactly when strictly positive (zero and
negatives draw the greater-than-0 error), and absence is permitted. -/
theorem c10_sequence_positive :
    (∀ n : Int, Id.validate (.obj [("@sequence", JValue.int n)]) = .ok ⟨some n, none⟩
       ↔ 0 < n)
  ∧ Id.validate (.obj []) = .ok ⟨none, none⟩ := by
  refine ⟨?_, rfl⟩
  intro n
  have hdef : Id.validate (.obj [("@sequence", JValue.int n)]) =
      ((VResult.ok Id.mk).seq (withKey "@sequence" (jOptPosInt (.int n)))).seq
        (VResult.ok none) := rfl
  have hp : jOptPosInt (.int n) =
      if 0 < n then .ok (some n)
      else .errs [⟨"greater_than", [], "Input should be greater than 0"⟩] := rfl
  rw [hdef, hp]
  split_ifs with h
  · constructor
    · intro _
      exact h
    · intro _
      rfl
  · constructor
    · intro hx
      simp [withKey, VResult.seq] at hx
    · intro hr
      exact absurd hr h

end ADFV


